import Mathlib

/-!
Verification of the change-scoped finding reconciliation engine of
`sonar-pr-scan` (files `src/diff_parser.py` and `src/main.py`).

The Python code is shallowly embedded:
* Python `dict` values become association lists over `String` keys with
  last-writer-wins insertion (`dictInsert`) and first-match lookup
  (`dictLookup`); a dict built by `dictInsert` has unique keys, so
  first-match lookup agrees with Python lookup.
* The third-party `unidiff.PatchSet` value consumed by
  `parse_changed_lines` is embedded as structured data (`PatchedFile`,
  `Hunk`, `LineOp`): `hunk.target_lines()` enumerates the target-side
  (new-file) lines of a hunk with 1-based numbers counted from the hunk
  header's target start, and `line.is_added` marks additions.
* The HTTP layer is embedded as a response oracle (`Server`); each fetch
  returns its value together with the `Request` it made, so the request
  log of a run is part of the function's result.
* Exceptions become `Except String`; `sys.exit` paths are `Except.error`.
-/

namespace SonarPrScan

/-- Python `d[k]` / `k in d` membership on a dict, as first-match lookup in an
association list. -/
def dictLookup {α : Type} : List (String × α) → String → Option α
  | [], _ => none
  | (k, v) :: rest, p => if k = p then some v else dictLookup rest p

/-- Python `d[k] = v`: replace the binding in place if the key exists, else
append, preserving insertion order. -/
def dictInsert {α : Type} (k : String) (v : α) : List (String × α) → List (String × α)
  | [] => [(k, v)]
  | (k', v') :: rest => if k' = k then (k, v) :: rest else (k', v') :: dictInsert k v rest

/-- The `changed_lines` dict of `diff_parser.parse_changed_lines`:
file path to the collection of added line numbers. -/
abbrev ChangeSet : Type := List (String × List Nat)

/-- The keys of a ChangeSet (Python `changed_lines.keys()`). -/
def csKeys (cs : ChangeSet) : List String := cs.map Prod.fst

/-- Lookup `changed_lines[fp]`, defaulting to the empty collection outside the keys. -/
def csLines (cs : ChangeSet) (fp : String) : List Nat := (dictLookup cs fp).getD []

/-! ### Diff model (`src/diff_parser.py`) -/

/-- One line record of a unified-diff hunk: an addition, a deletion, or a
context line. -/
inductive LineOp : Type
  | add
  | del
  | ctx
deriving DecidableEq

/-- One hunk of a `unidiff` patched file: the 1-based target-side start line
from the `@@` header, and the hunk's line records in order. -/
structure Hunk : Type where
  target_start : Nat
  ops : List LineOp
deriving DecidableEq

/-- One `unidiff.PatchedFile`: its (new) path, the binary/removed flags, and
its hunks. -/
structure PatchedFile : Type where
  path : String
  is_binary_file : Bool
  is_removed_file : Bool
  hunks : List Hunk
deriving DecidableEq

/-- Embeds `hunk.target_lines()` of `unidiff`: the target-side (new-file) lines of a
hunk, each with its 1-based `target_line_no` (counted from `target_start`;
deletions occupy no target line) and its `is_added` flag. -/
def hunkTargetLines : Nat → List LineOp → List (Nat × Bool)
  | _, [] => []
  | n, LineOp.add :: rest => (n, true) :: hunkTargetLines (n + 1) rest
  | n, LineOp.ctx :: rest => (n, false) :: hunkTargetLines (n + 1) rest
  | n, LineOp.del :: rest => hunkTargetLines n rest

/-- The inner loop of `parse_changed_lines`:
`for line in hunk.target_lines(): if line.is_added: lines.add(line.target_line_no)`. -/
def hunkAddedLines (h : Hunk) : List Nat :=
  (hunkTargetLines h.target_start h.ops).filterMap (fun p => if p.2 then some p.1 else none)

/-- All added target-side line numbers of one patched file
(`for hunk in patched_file` of `parse_changed_lines`). -/
def fileChangedLines (f : PatchedFile) : List Nat :=
  (f.hunks.map hunkAddedLines).flatten

/-- One iteration of the `for patched_file in patch` loop of
`parse_changed_lines`: skip binary and removed files, collect the added
lines, record them only when non-empty. -/
def processFile (acc : ChangeSet) (f : PatchedFile) : ChangeSet :=
  if f.is_binary_file || f.is_removed_file then acc
  else if (fileChangedLines f).isEmpty then acc
  else dictInsert f.path (fileChangedLines f) acc

/-- Embeds `parse_changed_lines` of the diff module, lines 19-43: fold the per-file loop
over the patch set starting from the empty dict. -/
def parse_changed_lines (pset : List PatchedFile) : ChangeSet :=
  pset.foldl processFile []

/-! ### SonarQube data fetching (`src/main.py`, lines 38-185) -/

/-- A raw issue record from `/api/issues/search` (the fields read by
`format_comment`): `component`, `line`, `message`, `severity`, `key`. -/
structure Issue : Type where
  component : String
  line : Option Nat
  message : String
  severity : String
  key : String
deriving DecidableEq

/-- A raw hotspot record from `/api/hotspots/search` (the fields read by
`format_comment`): `component`, `line`, `message`, `status`, `key`. -/
structure Hotspot : Type where
  component : String
  line : Option Nat
  message : String
  status : String
  key : String
deriving DecidableEq

/-- The SonarQube endpoints contacted by `get_sonar_data`. -/
inductive Endpoint : Type
  | issuesSearch
  | hotspotsSearch
  | measuresComponent
  | qualityGateStatus
deriving DecidableEq

/-- One HTTP request made against the analysis server: the endpoint and the
`pullRequest` parameter sent with it (`none` when the parameter is omitted). -/
structure Request : Type where
  endpoint : Endpoint
  pullRequest : Option Nat
deriving DecidableEq

/-- The analysis server as a response oracle: for each endpoint, the response
(parsed payload) or the raised exception, as a function of the `pullRequest`
parameter of the request. -/
structure Server : Type where
  issuesResp : Option Nat → Except String (List Issue)
  hotspotsResp : Option Nat → Except String (List Hotspot)
  measuresResp : Option Nat → Except String (List (String × String))
  qgResp : Option Nat → Except String String

/-- The tuple returned by `get_sonar_data`:
`(issues, hotspots, metrics, qg_status, used_pr_mode)`. -/
structure SonarData : Type where
  issues : List Issue
  hotspots : List Hotspot
  metrics : List (String × String)
  qg_status : String
  used_pr_mode : Bool
deriving DecidableEq

/-- Python truthiness of the optional `pr_number` int (`if pr_number:`). -/
def prTruthy : Option Nat → Bool
  | some n => n != 0
  | none => false

/-- The `pullRequest` parameter actually sent: every fetch guards with
`if pr_number: params["pullRequest"] = pr_number`, so a falsy number sends
no parameter. -/
def prParam (pr : Option Nat) : Option Nat :=
  if prTruthy pr then pr else none

/-- Python `str.lower()` restricted to what the code compares it with. -/
def lowerStr (s : String) : String := ⟨s.data.map Char.toLower⟩

/-- Embeds `edition.lower() in ['cloud', 'developer', 'enterprise']`
(main.py line 48). -/
def editionSupportsPrMode (edition : String) : Bool :=
  ["cloud", "developer", "enterprise"].contains (lowerStr edition)

/-- Embeds `get_sonar_issues` (main.py lines 76-91): propagates a fetch failure to
the caller (`raise_for_status`), and reports the request it made. -/
def get_sonar_issues (server : Server) (pr : Option Nat) :
    Except String (List Issue) × Request :=
  (server.issuesResp (prParam pr), Request.mk Endpoint.issuesSearch (prParam pr))

/-- Embeds `get_sonar_hotspots` (main.py lines 93-114): a failure is caught and
degrades to the empty list. -/
def get_sonar_hotspots (server : Server) (pr : Option Nat) : List Hotspot × Request :=
  (match server.hotspotsResp (prParam pr) with
    | Except.ok hs => hs
    | Except.error _ => [],
   Request.mk Endpoint.hotspotsSearch (prParam pr))

/-- Embeds `get_coverage_metrics` (main.py lines 116-138): on success the
`metric`/`value` pairs are inserted into a dict; a failure is caught and
leaves the dict empty. -/
def get_coverage_metrics (server : Server) (pr : Option Nat) :
    List (String × String) × Request :=
  (match server.measuresResp (prParam pr) with
    | Except.ok ms => ms.foldl (fun acc m => dictInsert m.1 m.2 acc) []
    | Except.error _ => [],
   Request.mk Endpoint.measuresComponent (prParam pr))

/-- Embeds `get_quality_gate_status` (main.py lines 170-185): a failure is caught
and degrades to `"UNKNOWN"`. -/
def get_quality_gate_status (server : Server) (pr : Option Nat) : String × Request :=
  (match server.qgResp (prParam pr) with
    | Except.ok s => s
    | Except.error _ => "UNKNOWN",
   Request.mk Endpoint.qualityGateStatus (prParam pr))

/-- main.py lines 67-74: once the issue-fetch mode is settled, the remaining
fetches reuse it (`fetch_pr = pr_number if used_pr_mode else None`). -/
def sonarSecondary (server : Server) (pr_number : Option Nat) (issues : List Issue)
    (used_pr_mode : Bool) (log : List Request) : Except String SonarData × List Request :=
  let fetch_pr : Option Nat := if used_pr_mode then pr_number else none
  let hs := get_sonar_hotspots server fetch_pr
  let ms := get_coverage_metrics server fetch_pr
  let qg := get_quality_gate_status server fetch_pr
  (Except.ok (SonarData.mk issues hs.1 ms.1 qg.1 used_pr_mode), log ++ [hs.2, ms.2, qg.2])

/-- Embeds `get_sonar_data` (main.py lines 38-74): attempt the PR-scoped issue fetch
when the edition supports it and a PR number exists; on failure fall back
once to the un-scoped fetch; otherwise fetch un-scoped directly.  An error of
the fetch that was not guarded by the try/except is fatal.  The second
component is the log of requests made, in order. -/
def get_sonar_data (server : Server) (pr_number : Option Nat) (edition : String) :
    Except String SonarData × List Request :=
  if editionSupportsPrMode edition && prTruthy pr_number then
    let first := get_sonar_issues server pr_number
    match first.1 with
    | Except.ok issues => sonarSecondary server pr_number issues true [first.2]
    | Except.error _ =>
      let second := get_sonar_issues server none
      match second.1 with
      | Except.ok issues => sonarSecondary server pr_number issues false [first.2, second.2]
      | Except.error e => (Except.error e, [first.2, second.2])
  else
    let only := get_sonar_issues server none
    match only.1 with
    | Except.ok issues => sonarSecondary server pr_number issues false [only.2]
    | Except.error e => (Except.error e, [only.2])

/-! ### Report formatting (`src/main.py`, `format_comment`, lines 187-314) -/

/-- The characters after the first colon, when a colon occurs. -/
def afterFirstColon : List Char → Option (List Char)
  | [] => none
  | c :: rest => if c = ':' then some rest else afterFirstColon rest

/-- Embeds `component.split(":", 1)[-1] if ":" in component else component`
(main.py lines 195 and 228): everything after the first colon when one is
present, the whole string otherwise. -/
def extractPath (component : String) : String :=
  match afterFirstColon component.data with
  | some rest => String.mk rest
  | none => component

/-- Embeds `line or "N/A"` rendered through the f-string: a missing (or falsy 0)
line displays as `"N/A"`, any other number as its decimal form. -/
def lineDisplay : Option Nat → String
  | none => "N/A"
  | some n => if n = 0 then "N/A" else toString n

/-- Rendering of an `Option Nat` through through an f-string (only reached when the
number is truthy). -/
def prShow : Option Nat → String
  | some n => toString n
  | none => "None"

/-- One element of `relevant_issues` (main.py lines 214-220). -/
structure RelevantIssue : Type where
  file : String
  line : String
  message : String
  severity : String
  link : String
deriving DecidableEq

/-- One element of `relevant_hotspots` (main.py lines 244-250). -/
structure RelevantHotspot : Type where
  file : String
  line : String
  message : String
  status : String
  link : String
deriving DecidableEq

/-- The issue detail link (main.py lines 211-212). -/
def issueLink (host project_key issue_key : String) (pr_number : Option Nat)
    (is_pr_mode : Bool) : String :=
  let base := host ++ "/project/issues?id=" ++ project_key ++ "&issues=" ++ issue_key ++
    "&open=" ++ issue_key
  if prTruthy pr_number && is_pr_mode then base ++ "&pullRequest=" ++ prShow pr_number
  else base

/-- The issue scope decision (main.py lines 198-207): in PR mode include
unconditionally; in global mode include iff the file is a key of
`changed_lines` and the line is `None` or a member of its entry. -/
def issueInclude (changed_lines : ChangeSet) (is_pr_mode : Bool) (issue : Issue) : Bool :=
  if is_pr_mode then true
  else
    match dictLookup changed_lines (extractPath issue.component) with
    | none => false
    | some ls =>
      match issue.line with
      | none => true
      | some l => ls.contains l

/-- The record appended for an included issue (main.py lines 214-220). -/
def issueEntry (host project_key : String) (pr_number : Option Nat) (is_pr_mode : Bool)
    (issue : Issue) : RelevantIssue :=
  RelevantIssue.mk (extractPath issue.component) (lineDisplay issue.line) issue.message
    issue.severity (issueLink host project_key issue.key pr_number is_pr_mode)

/-- The `for issue in issues` loop of `format_comment` (lines 192-223). -/
def relevantIssues (issues : List Issue) (changed_lines : ChangeSet) (host project_key : String)
    (pr_number : Option Nat) (is_pr_mode : Bool) : List RelevantIssue :=
  match issues with
  | [] => []
  | issue :: rest =>
    if issueInclude changed_lines is_pr_mode issue then
      issueEntry host project_key pr_number is_pr_mode issue ::
        relevantIssues rest changed_lines host project_key pr_number is_pr_mode
    else
      relevantIssues rest changed_lines host project_key pr_number is_pr_mode

/-- The hotspot detail link (main.py lines 241-242). -/
def hotspotLink (host project_key hs_key : String) (pr_number : Option Nat)
    (is_pr_mode : Bool) : String :=
  let base := host ++ "/security_hotspots?id=" ++ project_key ++ "&hotspots=" ++ hs_key
  if prTruthy pr_number && is_pr_mode then base ++ "&pullRequest=" ++ prShow pr_number
  else base

/-- The hotspot scope decision (main.py lines 231-237): in PR mode include
unconditionally; in global mode include iff the file is a key of
`changed_lines` — the line is not consulted. -/
def hotspotInclude (changed_lines : ChangeSet) (is_pr_mode : Bool) (hs : Hotspot) : Bool :=
  if is_pr_mode then true
  else (dictLookup changed_lines (extractPath hs.component)).isSome

/-- The record appended for an included hotspot (main.py lines 244-250). -/
def hotspotEntry (host project_key : String) (pr_number : Option Nat) (is_pr_mode : Bool)
    (hs : Hotspot) : RelevantHotspot :=
  RelevantHotspot.mk (extractPath hs.component) (lineDisplay hs.line) hs.message hs.status
    (hotspotLink host project_key hs.key pr_number is_pr_mode)

/-- The `for hs in hotspots` loop of `format_comment` (lines 226-252). -/
def relevantHotspots (hotspots : List Hotspot) (changed_lines : ChangeSet)
    (host project_key : String) (pr_number : Option Nat) (is_pr_mode : Bool) :
    List RelevantHotspot :=
  match hotspots with
  | [] => []
  | hs :: rest =>
    if hotspotInclude changed_lines is_pr_mode hs then
      hotspotEntry host project_key pr_number is_pr_mode hs ::
        relevantHotspots rest changed_lines host project_key pr_number is_pr_mode
    else
      relevantHotspots rest changed_lines host project_key pr_number is_pr_mode

/-- Embeds `status_icons.get(qg_status, qg_status)` (main.py lines 264-270): the
four recognized statuses map to fixed labels, anything else passes through
verbatim. -/
def healthIcon (qg_status : String) : String :=
  if qg_status = "OK" then "✅ Passed"
  else if qg_status = "ERROR" then "❌ Failed"
  else if qg_status = "WARN" then "⚠️ Warning"
  else if qg_status = "UNKNOWN" then "❓ Unknown"
  else qg_status

/-- The `**PR Health**` line (main.py line 271). -/
def healthLine (qg_status : String) : String :=
  "**PR Health**: " ++ healthIcon qg_status ++ "\n\n"

/-- The overall-coverage paragraph (main.py lines 273-279), emitted only for
a non-empty metrics dict. -/
def coverageLine (metrics : List (String × String)) : String :=
  if metrics.isEmpty then ""
  else
    let cov := (dictLookup metrics "coverage").getD "N/A"
    let new_cov := (dictLookup metrics "new_coverage").getD "N/A"
    "**Overall Coverage**: " ++ cov ++ "%" ++
      (if new_cov ≠ "N/A" then " (New Code: " ++ new_cov ++ "%)" else "") ++ "\n\n"

/-- The rows of the file-coverage table (main.py lines 285-286). -/
def fileCoverageRows : List (String × String) → String
  | [] => ""
  | (path, score) :: rest => "| `" ++ path ++ "` | " ++ score ++ "% |\n" ++ fileCoverageRows rest

/-- The file-coverage table (main.py lines 281-287), emitted only for a
non-empty dict. -/
def fileCoverageSection (file_coverage : List (String × String)) : String :=
  if file_coverage.isEmpty then ""
  else "#### 📄 File Coverage\n| File | Coverage |\n|------|----------|\n" ++
    fileCoverageRows file_coverage ++ "\n"

/-- Embeds `icons.get(i['severity'], "️")` (main.py line 298). -/
def severityIcon (severity : String) : String :=
  if severity = "BLOCKER" then "🚫"
  else if severity = "CRITICAL" then "🔴"
  else if severity = "MAJOR" then "🟠"
  else if severity = "MINOR" then "🟢"
  else if severity = "INFO" then "ℹ️"
  else "️"

/-- One issue table row (main.py line 301). -/
def issueRow (e : RelevantIssue) : String :=
  "| " ++ severityIcon e.severity ++ " " ++ e.severity ++ " | `" ++ e.file ++ "` | " ++
    e.line ++ " | [" ++ e.message ++ "](" ++ e.link ++ ") |\n"

/-- The issue table rows, in order (main.py lines 299-301). -/
def issueRows : List RelevantIssue → String
  | [] => ""
  | e :: rest => issueRow e ++ issueRows rest

/-- The issue table header literal (main.py lines 295-297). -/
def issuesTableHeader : String :=
  "#### 🐛 Issues\n| Severity | File | Line | Message |\n|----------|------|------|---------|\n"

/-- The issues section (main.py lines 294-302), emitted only when some
relevant issue exists. -/
def issuesTable (ris : List RelevantIssue) : String :=
  if ris.isEmpty then ""
  else issuesTableHeader ++ issueRows ris ++ "\n"

/-- One hotspot table row (main.py line 309). -/
def hotspotRow (e : RelevantHotspot) : String :=
  "| 🛡️ " ++ e.status ++ " | `" ++ e.file ++ "` | " ++ e.line ++ " | [" ++ e.message ++
    "](" ++ e.link ++ ") |\n"

/-- The hotspot table rows, in order (main.py lines 308-309). -/
def hotspotRows : List RelevantHotspot → String
  | [] => ""
  | e :: rest => hotspotRow e ++ hotspotRows rest

/-- The hotspot table header literal (main.py lines 305-307). -/
def hotspotsTableHeader : String :=
  "#### 🛡️ Security Hotspots\n| Status | File | Line | Message |\n|--------|------|------|---------|\n"

/-- The hotspots section (main.py lines 304-310), emitted only when some
relevant hotspot exists. -/
def hotspotsTable (rhs : List RelevantHotspot) : String :=
  if rhs.isEmpty then ""
  else hotspotsTableHeader ++ hotspotRows rhs ++ "\n"

/-- The no-findings marker (main.py line 292). -/
def noIssuesMarker : String := "✅ No issues found in the new code."

/-- The findings section (main.py lines 291-310): the marker when both
relevant lists are empty, the tables otherwise. -/
def findingsSection (ris : List RelevantIssue) (rhs : List RelevantHotspot) : String :=
  if ris.isEmpty && rhs.isEmpty then noIssuesMarker
  else issuesTable ris ++ hotspotsTable rhs

/-- The dashboard link line (main.py lines 258-262). -/
def analysisLinkLine (host project_key : String) (pr_number : Option Nat)
    (is_pr_mode : Bool) : String :=
  if prTruthy pr_number && is_pr_mode then
    "[See analysis details on SonarQube](" ++ host ++ "/dashboard?id=" ++ project_key ++
      "&pullRequest=" ++ prShow pr_number ++ ")\n\n"
  else "\n"

/-- The hidden marker line the comment starts with (main.py line 255). -/
def commentMarkerLine : String := "<!-- sonarppr-scan -->\n"

/-- Embeds `format_comment` (main.py lines 187-314): the full rendered comment, the
sections concatenated in source order. -/
def format_comment (issues : List Issue) (hotspots : List Hotspot) (changed_lines : ChangeSet)
    (metrics file_coverage : List (String × String)) (qg_status host project_key : String)
    (pr_number : Option Nat) (is_pr_mode : Bool) : String :=
  commentMarkerLine ++
    ("### 🔍 SonarQube Analysis (New Code)\n" ++
      (analysisLinkLine host project_key pr_number is_pr_mode ++
        (healthLine qg_status ++
          (coverageLine metrics ++
            (fileCoverageSection file_coverage ++
              (findingsSection
                  (relevantIssues issues changed_lines host project_key pr_number is_pr_mode)
                  (relevantHotspots hotspots changed_lines host project_key pr_number is_pr_mode) ++
                "\n---\n_Reported by sonarppr-scan_"))))))

/-! ### Spec-side definitions -/

/-- The spec's scoping predicate, written from its words: a finding at
`fp`/`line` is in scope iff `fp ∈ ChangeSet` and (`line = none` or
`line ∈ ChangeSet[fp]`). -/
def inScope (cs : ChangeSet) (fp : String) (line : Option Nat) : Bool :=
  (csKeys cs).contains fp &&
    (match line with
     | none => true
     | some l => (csLines cs fp).contains l)

/-- Benign issue fields: no rendered field of the entry contains the
check-mark character that `noIssuesMarker` starts with. -/
abbrev riBenign (e : RelevantIssue) : Prop :=
  '✅' ∉ e.file.data ∧ '✅' ∉ e.line.data ∧ '✅' ∉ e.message.data ∧
    '✅' ∉ e.severity.data ∧ '✅' ∉ e.link.data

/-- Benign hotspot fields: no rendered field of the entry contains the
check-mark character that `noIssuesMarker` starts with. -/
abbrev rhBenign (e : RelevantHotspot) : Prop :=
  '✅' ∉ e.file.data ∧ '✅' ∉ e.line.data ∧ '✅' ∉ e.message.data ∧
    '✅' ∉ e.status.data ∧ '✅' ∉ e.link.data

/-! ### Concrete fixtures used by witnesses and counterexamples -/

/-- A line-11 issue in `src/app.py` of project `proj`. -/
def wIssue : Issue := Issue.mk "proj:src/app.py" (some 11) "Remove this unused variable." "MAJOR" "ISS-1"

/-- An issue in a file outside any change set. -/
def c6Issue : Issue := Issue.mk "proj:outside.py" (some 3) "Unused import" "MINOR" "ISS-9"

/-- A change set with lines 10-12 of `src/app.py`. -/
def wCS : ChangeSet := [("src/app.py", [10, 11, 12])]

/-- A server whose PR-scoped issue fetch fails and whose un-scoped fetch
succeeds. -/
def wFallbackServer : Server :=
  Server.mk
    (fun pr => match pr with
      | some _ => Except.error "503 Service Unavailable"
      | none => Except.ok [wIssue])
    (fun _ => Except.ok [])
    (fun _ => Except.ok [])
    (fun _ => Except.ok "OK")

/-- A server whose issue fetch succeeds but whose hotspot, measures and
quality-gate fetches all fail. -/
def wDegradedServer : Server :=
  Server.mk
    (fun _ => Except.ok [wIssue])
    (fun _ => Except.error "500 Internal Server Error")
    (fun _ => Except.error "500 Internal Server Error")
    (fun _ => Except.error "500 Internal Server Error")

/-- A patch set: three lines added to `a.py`, a binary file, a removed file,
and a file with only context and deletion lines. -/
def wPset : List PatchedFile :=
  [PatchedFile.mk "a.py" false false [Hunk.mk 10 [LineOp.add, LineOp.add, LineOp.add]],
   PatchedFile.mk "img.bin" true false [Hunk.mk 1 [LineOp.add]],
   PatchedFile.mk "gone.py" false true [Hunk.mk 1 [LineOp.add]],
   PatchedFile.mk "ctx.py" false false [Hunk.mk 1 [LineOp.ctx, LineOp.del, LineOp.ctx]]]

/-- A relevant-issue entry with benign rendered fields. -/
def wRI : RelevantIssue := RelevantIssue.mk "src/app.py" "11" "Remove this unused variable." "MAJOR" "link"

/-! ### Helper lemmas -/

theorem strData_append (s t : String) : (s ++ t).data = s.data ++ t.data := rfl

theorem char_notMem_append {c : Char} {s t : String} (hs : c ∉ s.data) (ht : c ∉ t.data) :
    c ∉ (s ++ t).data := by
  intro h
  rcases List.mem_append.1 h with h | h
  · exact hs h
  · exact ht h

theorem dictLookup_dictInsert {α : Type} (k : String) (v : α) (d : List (String × α))
    (p : String) :
    dictLookup (dictInsert k v d) p = if k = p then some v else dictLookup d p := by
  induction d with
  | nil => rfl
  | cons kv rest ih =>
    obtain ⟨k', v'⟩ := kv
    by_cases h1 : k' = k
    · subst h1
      by_cases h2 : k' = p <;> simp [dictInsert, dictLookup, h2]
    · by_cases h2 : k' = p
      · subst h2
        have hk : ¬k = k' := fun h => h1 h.symm
        simp [dictInsert, dictLookup, h1, hk]
      · simp [dictInsert, dictLookup, h1, h2, ih]

theorem dictLookup_isSome_eq {α : Type} (d : List (String × α)) (p : String) :
    (dictLookup d p).isSome = (d.map Prod.fst).contains p := by
  induction d with
  | nil => rfl
  | cons kv rest ih =>
    obtain ⟨k, v⟩ := kv
    by_cases h : k = p
    · subst h
      simp [dictLookup]
    · simp [dictLookup, h, ih, Ne.symm h]

theorem issueInclude_global_eq (cs : ChangeSet) (i : Issue) :
    issueInclude cs false i = inScope cs (extractPath i.component) i.line := by
  unfold issueInclude inScope csLines csKeys
  rw [← dictLookup_isSome_eq]
  cases h : dictLookup cs (extractPath i.component) with
  | none => simp [h]
  | some ls =>
    cases i.line with
    | none => simp [h]
    | some l => simp [h]

theorem hotspotInclude_global_eq (cs : ChangeSet) (hs : Hotspot) :
    hotspotInclude cs false hs = (csKeys cs).contains (extractPath hs.component) := by
  unfold hotspotInclude csKeys
  rw [← dictLookup_isSome_eq]
  simp

theorem relevantIssues_eq_filter_map (issues : List Issue) (cs : ChangeSet)
    (host project_key : String) (pr_number : Option Nat) (m : Bool) :
    relevantIssues issues cs host project_key pr_number m =
      (issues.filter (fun i => issueInclude cs m i)).map (issueEntry host project_key pr_number m) := by
  induction issues with
  | nil => rfl
  | cons i rest ih =>
    by_cases h : issueInclude cs m i <;>
      simp [relevantIssues, List.filter_cons, h, ih]

theorem relevantHotspots_eq_filter_map (hotspots : List Hotspot) (cs : ChangeSet)
    (host project_key : String) (pr_number : Option Nat) (m : Bool) :
    relevantHotspots hotspots cs host project_key pr_number m =
      (hotspots.filter (fun hs => hotspotInclude cs m hs)).map
        (hotspotEntry host project_key pr_number m) := by
  induction hotspots with
  | nil => rfl
  | cons hs rest ih =>
    by_cases h : hotspotInclude cs m hs <;>
      simp [relevantHotspots, List.filter_cons, h, ih]

theorem relevantIssues_server_eq (issues : List Issue) (cs : ChangeSet)
    (host project_key : String) (pr_number : Option Nat) :
    relevantIssues issues cs host project_key pr_number true =
      issues.map (issueEntry host project_key pr_number true) := by
  rw [relevantIssues_eq_filter_map]
  have h : issues.filter (fun i => issueInclude cs true i) = issues :=
    List.filter_eq_self.2 (fun i _ => rfl)
  rw [h]

theorem relevantHotspots_server_eq (hotspots : List Hotspot) (cs : ChangeSet)
    (host project_key : String) (pr_number : Option Nat) :
    relevantHotspots hotspots cs host project_key pr_number true =
      hotspots.map (hotspotEntry host project_key pr_number true) := by
  rw [relevantHotspots_eq_filter_map]
  have h : hotspots.filter (fun hs => hotspotInclude cs true hs) = hotspots :=
    List.filter_eq_self.2 (fun hs _ => rfl)
  rw [h]

/-! ### Claim theorems -/

/-- Claim C1: under ManualFiltered (global) mode the issue loop of
`format_comment` keeps exactly the issues whose extracted file path is a key
of the ChangeSet and whose line is `none` or a member of that file's entry
(the spec's `inScope` predicate), in order; under ServerFiltered (PR) mode
every issue is kept and no file or line check is re-applied. -/
theorem scope_c1 (issues : List Issue) (changed_lines : ChangeSet) (host project_key : String)
    (pr_number : Option Nat) :
    relevantIssues issues changed_lines host project_key pr_number false =
      (issues.filter (fun i => inScope changed_lines (extractPath i.component) i.line)).map
        (issueEntry host project_key pr_number false) ∧
    relevantIssues issues changed_lines host project_key pr_number true =
      issues.map (issueEntry host project_key pr_number true) := by
  constructor
  · rw [relevantIssues_eq_filter_map]
    congr 1
    exact List.filter_congr (fun i _ => issueInclude_global_eq changed_lines i)
  · exact relevantIssues_server_eq issues changed_lines host project_key pr_number

/-- Claim C2: under ManualFiltered mode the hotspot loop of `format_comment`
keeps exactly the hotspots whose extracted file path is a key of the
ChangeSet; the decision never consults the hotspot's line (replacing the line
leaves it unchanged), while the entry built for an included hotspot still
records the line for display (a positive line renders as its decimal form). -/
theorem scope_c2 (hotspots : List Hotspot) (changed_lines : ChangeSet) (host project_key : String)
    (pr_number : Option Nat) :
    relevantHotspots hotspots changed_lines host project_key pr_number false =
      (hotspots.filter (fun hs => (csKeys changed_lines).contains (extractPath hs.component))).map
        (hotspotEntry host project_key pr_number false) ∧
    (∀ (hs : Hotspot) (l : Option Nat),
      hotspotInclude changed_lines false { hs with line := l } =
        hotspotInclude changed_lines false hs) ∧
    (∀ n : Nat, lineDisplay (some (n + 1)) = toString (n + 1)) ∧
    (∀ hs : Hotspot,
      (hotspotEntry host project_key pr_number false hs).line = lineDisplay hs.line) := by
  refine ⟨?_, ?_, ?_, ?_⟩
  · rw [relevantHotspots_eq_filter_map]
    congr 1
    exact List.filter_congr (fun hs _ => hotspotInclude_global_eq changed_lines hs)
  · intro hs l
    rfl
  · intro n
    simp [lineDisplay]
  · intro hs
    rfl

/-- Claim C3: under ServerFiltered (PR) mode the change-scope filter is the
identity on its input list: both loops keep every element in order, and the
result does not depend on the ChangeSet at all. -/
theorem scope_c3 (issues : List Issue) (hotspots : List Hotspot) (cs cs2 : ChangeSet)
    (host project_key : String) (pr_number : Option Nat) :
    relevantIssues issues cs host project_key pr_number true =
      issues.map (issueEntry host project_key pr_number true) ∧
    relevantHotspots hotspots cs host project_key pr_number true =
      hotspots.map (hotspotEntry host project_key pr_number true) ∧
    relevantIssues issues cs host project_key pr_number true =
      relevantIssues issues cs2 host project_key pr_number true ∧
    relevantHotspots hotspots cs host project_key pr_number true =
      relevantHotspots hotspots cs2 host project_key pr_number true := by
  refine ⟨relevantIssues_server_eq issues cs host project_key pr_number,
    relevantHotspots_server_eq hotspots cs host project_key pr_number, ?_, ?_⟩
  · rw [relevantIssues_server_eq, relevantIssues_server_eq]
  · rw [relevantHotspots_server_eq, relevantHotspots_server_eq]

/-- Claim C6 counterexample: in ServerFiltered (PR) mode an issue whose file
path is absent from the ChangeSet is nevertheless included in the relevant
set, so the report can contain a finding whose file is outside the
ChangeSet. -/
theorem report_c6_counterexample :
    (relevantIssues [c6Issue] [] "https://sonar.example" "proj" (some 4) true).map
      RelevantIssue.file = ["outside.py"] ∧
    "outside.py" ∉ csKeys ([] : ChangeSet) :=
  ⟨by decide, by decide⟩

/-- Claim C6 as amended: under ManualFiltered (global) mode the report
contains no finding — issue or hotspot — whose file path is absent from the
ChangeSet; under ServerFiltered mode the server is trusted and findings are
included regardless of the ChangeSet. -/
theorem report_c6_amended (issues : List Issue) (hotspots : List Hotspot) (cs : ChangeSet)
    (host project_key : String) (pr_number : Option Nat) :
    (∀ e ∈ relevantIssues issues cs host project_key pr_number false, e.file ∈ csKeys cs) ∧
    (∀ e ∈ relevantHotspots hotspots cs host project_key pr_number false, e.file ∈ csKeys cs) := by
  constructor
  · intro e he
    rw [relevantIssues_eq_filter_map] at he
    obtain ⟨i, hi, rfl⟩ := List.mem_map.1 he
    have hm := (List.mem_filter.1 hi).2
    rw [issueInclude_global_eq] at hm
    unfold inScope at hm
    rw [Bool.and_eq_true] at hm
    have h1 : (csKeys cs).contains (extractPath i.component) = true := hm.1
    show extractPath i.component ∈ csKeys cs
    simpa using h1
  · intro e he
    rw [relevantHotspots_eq_filter_map] at he
    obtain ⟨hs, hi, rfl⟩ := List.mem_map.1 he
    have hm := (List.mem_filter.1 hi).2
    rw [hotspotInclude_global_eq] at hm
    show extractPath hs.component ∈ csKeys cs
    simpa using hm

/-- Witness for the amended C6 at a concrete input. -/
theorem report_c6_witness :
    (issueEntry "https://sonar.example" "proj" none false wIssue).file ∈ csKeys wCS :=
  (report_c6_amended [wIssue] [] wCS "https://sonar.example" "proj" none).1
    (issueEntry "https://sonar.example" "proj" none false wIssue) (by decide)

theorem hunkAdded_target (hk : Hunk) (n : Nat) (hn : n ∈ hunkAddedLines hk) :
    (n, true) ∈ hunkTargetLines hk.target_start hk.ops := by
  unfold hunkAddedLines at hn
  rw [List.mem_filterMap] at hn
  obtain ⟨⟨m, b⟩, hmem, heq⟩ := hn
  cases b with
  | true =>
    simp only [if_true] at heq
    simp at heq
    subst heq
    exact hmem
  | false => simp at heq

theorem fileChanged_mem (f : PatchedFile) (n : Nat) (hn : n ∈ fileChangedLines f) :
    ∃ hk, hk ∈ f.hunks ∧ n ∈ hunkAddedLines hk := by
  unfold fileChangedLines at hn
  rw [List.mem_flatten] at hn
  obtain ⟨l, hl, hnl⟩ := hn
  obtain ⟨hk, hhk, rfl⟩ := List.mem_map.1 hl
  exact ⟨hk, hhk, hnl⟩

theorem parseFold_lookup (pset : List PatchedFile) :
    ∀ (acc : ChangeSet) (p : String) (ls : List Nat),
      dictLookup (pset.foldl processFile acc) p = some ls →
      dictLookup acc p = some ls ∨
        ∃ f, f ∈ pset ∧ f.path = p ∧ f.is_binary_file = false ∧ f.is_removed_file = false ∧
          ls = fileChangedLines f ∧ ls ≠ [] := by
  induction pset with
  | nil =>
    intro acc p ls h
    exact Or.inl h
  | cons f rest ih =>
    intro acc p ls h
    rw [List.foldl_cons] at h
    rcases ih (processFile acc f) p ls h with h' | ⟨f', h1, h2, h3, h4, h5, h6⟩
    · unfold processFile at h'
      by_cases hbr : (f.is_binary_file || f.is_removed_file) = true
      · rw [if_pos hbr] at h'
        exact Or.inl h'
      · rw [if_neg hbr] at h'
        by_cases hemp : (fileChangedLines f).isEmpty = true
        · rw [if_pos hemp] at h'
          exact Or.inl h'
        · rw [if_neg hemp] at h'
          rw [dictLookup_dictInsert] at h'
          by_cases hp : f.path = p
          · rw [if_pos hp] at h'
            have hls : ls = fileChangedLines f := (Option.some_inj.1 h').symm
            simp only [Bool.or_eq_true, not_or, Bool.not_eq_true] at hbr
            have hnn : ls ≠ [] := by
              rw [hls]
              simpa [List.isEmpty_iff] using hemp
            exact Or.inr ⟨f, List.mem_cons_self f rest, hp, hbr.1, hbr.2, hls, hnn⟩
          · rw [if_neg hp] at h'
            exact Or.inl h'
    · exact Or.inr ⟨f', List.mem_cons_of_mem f h1, h2, h3, h4, h5, h6⟩

/-- Claim C4: every entry of the ChangeSet built by `parse_changed_lines`
comes from a non-binary, non-removed patched file with that path, its
recorded collection of lines is exactly that file's added lines and is
non-empty, and each recorded number is the 1-based target-side line number of
an added line of one of that file's hunks. -/
theorem diff_c4 (pset : List PatchedFile) (p : String) (ls : List Nat)
    (h : dictLookup (parse_changed_lines pset) p = some ls) :
    ls ≠ [] ∧
      ∃ f, f ∈ pset ∧ f.path = p ∧ f.is_binary_file = false ∧ f.is_removed_file = false ∧
        ls = fileChangedLines f ∧
        ∀ n ∈ ls, ∃ hk, hk ∈ f.hunks ∧ (n, true) ∈ hunkTargetLines hk.target_start hk.ops := by
  rcases parseFold_lookup pset [] p ls h with h0 | ⟨f, hf, hp, hb, hr, hls, hne⟩
  · exact absurd h0 (by simp [dictLookup])
  · refine ⟨hne, f, hf, hp, hb, hr, hls, ?_⟩
    intro n hn
    rw [hls] at hn
    obtain ⟨hk, hhk, hadd⟩ := fileChanged_mem f n hn
    exact ⟨hk, hhk, hunkAdded_target hk n hadd⟩

/-- Witness for C4 at a concrete patch set (added lines, a binary file, a
removed file, and a context-and-deletion-only file). -/
theorem diff_c4_witness :
    dictLookup (parse_changed_lines wPset) "a.py" = some [10, 11, 12] ∧
    ([10, 11, 12] ≠ ([] : List Nat) ∧
      ∃ f, f ∈ wPset ∧ f.path = "a.py" ∧ f.is_binary_file = false ∧ f.is_removed_file = false ∧
        [10, 11, 12] = fileChangedLines f ∧
        ∀ n ∈ [10, 11, 12],
          ∃ hk, hk ∈ f.hunks ∧ (n, true) ∈ hunkTargetLines hk.target_start hk.ops) :=
  ⟨by decide, diff_c4 wPset "a.py" [10, 11, 12] (by decide)⟩

/-- Claim C5: when the PR-scoped issue fetch is attempted (capable edition
and truthy PR number) and fails, `get_sonar_data` makes exactly one further
issue request — un-scoped — and none after it: if that fallback succeeds the
run proceeds in global mode (`used_pr_mode = false`) and every subsequent
fetch (hotspots, measures, quality gate) is made without a `pullRequest`
parameter; if the fallback also fails the run aborts after exactly those two
issue requests, with no retry. -/
theorem mode_c5 (server : Server) (edition : String) (pr_number : Option Nat) (e : String)
    (hcap : editionSupportsPrMode edition = true)
    (hpr : prTruthy pr_number = true)
    (hfail : server.issuesResp (prParam pr_number) = Except.error e) :
    (∀ issues, server.issuesResp none = Except.ok issues →
      get_sonar_data server pr_number edition =
        (Except.ok (SonarData.mk issues (get_sonar_hotspots server none).1
            (get_coverage_metrics server none).1 (get_quality_gate_status server none).1 false),
         [Request.mk Endpoint.issuesSearch (prParam pr_number),
          Request.mk Endpoint.issuesSearch none,
          Request.mk Endpoint.hotspotsSearch none,
          Request.mk Endpoint.measuresComponent none,
          Request.mk Endpoint.qualityGateStatus none])) ∧
    (∀ e2, server.issuesResp none = Except.error e2 →
      get_sonar_data server pr_number edition =
        (Except.error e2,
         [Request.mk Endpoint.issuesSearch (prParam pr_number),
          Request.mk Endpoint.issuesSearch none])) := by
  have hpp : prParam none = none := rfl
  constructor
  · intro issues hok
    simp [get_sonar_data, get_sonar_issues, sonarSecondary, hcap, hpr, hfail, hok, hpp,
      get_sonar_hotspots, get_coverage_metrics, get_quality_gate_status]
  · intro e2 hfail2
    simp [get_sonar_data, get_sonar_issues, hcap, hpr, hfail, hfail2, hpp]

/-- Witness for C5 at a concrete server whose PR-scoped fetch fails and
whose un-scoped fetch succeeds. -/
theorem mode_c5_witness :
    get_sonar_data wFallbackServer (some 7) "developer" =
      (Except.ok (SonarData.mk [wIssue] [] [] "OK" false),
       [Request.mk Endpoint.issuesSearch (some 7),
        Request.mk Endpoint.issuesSearch none,
        Request.mk Endpoint.hotspotsSearch none,
        Request.mk Endpoint.measuresComponent none,
        Request.mk Endpoint.qualityGateStatus none]) :=
  (mode_c5 wFallbackServer "developer" (some 7) "503 Service Unavailable"
      (by decide) (by decide) rfl).1 [wIssue] rfl

/-- Claim C9: a failed fetch of each item of secondary data degrades
independently to its fixed default — hotspots to the empty list, coverage
metrics to the empty mapping, quality-gate status to `"UNKNOWN"` — and
`get_sonar_data` still returns a successful result (so a report is built)
whenever the issue fetch itself succeeds, whatever the secondary responses. -/
theorem degrade_c9 (server : Server) (pr : Option Nat) (e1 e2 e3 : String)
    (h1 : server.hotspotsResp (prParam pr) = Except.error e1)
    (h2 : server.measuresResp (prParam pr) = Except.error e2)
    (h3 : server.qgResp (prParam pr) = Except.error e3) :
    (get_sonar_hotspots server pr).1 = [] ∧
    (get_coverage_metrics server pr).1 = [] ∧
    (get_quality_gate_status server pr).1 = "UNKNOWN" ∧
    (∀ (edition : String) (issues : List Issue), editionSupportsPrMode edition = false →
      server.issuesResp none = Except.ok issues →
      (get_sonar_data server pr edition).1 =
        Except.ok (SonarData.mk issues (get_sonar_hotspots server none).1
          (get_coverage_metrics server none).1 (get_quality_gate_status server none).1 false)) := by
  refine ⟨?_, ?_, ?_, ?_⟩
  · simp [get_sonar_hotspots, h1]
  · simp [get_coverage_metrics, h2]
  · simp [get_quality_gate_status, h3]
  · intro edition issues hcap hok
    have hpp : prParam none = none := rfl
    simp [get_sonar_data, get_sonar_issues, sonarSecondary, hcap, hok, hpp]

/-- Witness for C9 at a concrete server whose three secondary fetches fail
while the issue fetch succeeds. -/
theorem degrade_c9_witness :
    (get_sonar_hotspots wDegradedServer (some 7)).1 = [] ∧
    (get_coverage_metrics wDegradedServer (some 7)).1 = [] ∧
    (get_quality_gate_status wDegradedServer (some 7)).1 = "UNKNOWN" ∧
    (get_sonar_data wDegradedServer (some 7) "community").1 =
      Except.ok (SonarData.mk [wIssue] [] [] "UNKNOWN" false) :=
  ⟨(degrade_c9 wDegradedServer (some 7) "500 Internal Server Error" "500 Internal Server Error"
      "500 Internal Server Error" rfl rfl rfl).1,
   (degrade_c9 wDegradedServer (some 7) "500 Internal Server Error" "500 Internal Server Error"
      "500 Internal Server Error" rfl rfl rfl).2.1,
   (degrade_c9 wDegradedServer (some 7) "500 Internal Server Error" "500 Internal Server Error"
      "500 Internal Server Error" rfl rfl rfl).2.2.1,
   (degrade_c9 wDegradedServer (some 7) "500 Internal Server Error" "500 Internal Server Error"
      "500 Internal Server Error" rfl rfl rfl).2.2.2 "community" [wIssue] (by decide) rfl⟩

theorem strMiddle_infixOf (a b c s : String) (h : s = a ++ (b ++ c)) :
    b.data <:+: s.data := by
  subst h
  exact ⟨a.data, c.data, by simp [strData_append, List.append_assoc]⟩

/-- Claim C10: for every combination of inputs the rendered comment starts
with the hidden marker line `<!-- sonarppr-scan -->` and is non-empty, so the
truthiness test guarding the posting branch in `main` always passes. -/
theorem marker_c10 (issues : List Issue) (hotspots : List Hotspot) (changed_lines : ChangeSet)
    (metrics file_coverage : List (String × String)) (qg_status host project_key : String)
    (pr_number : Option Nat) (is_pr_mode : Bool) :
    commentMarkerLine.data <+:
      (format_comment issues hotspots changed_lines metrics file_coverage qg_status host
        project_key pr_number is_pr_mode).data ∧
    0 < (format_comment issues hotspots changed_lines metrics file_coverage qg_status host
        project_key pr_number is_pr_mode).length := by
  have hp : commentMarkerLine.data <+:
      (format_comment issues hotspots changed_lines metrics file_coverage qg_status host
        project_key pr_number is_pr_mode).data := ⟨_, rfl⟩
  refine ⟨hp, ?_⟩
  have h1 : 0 < commentMarkerLine.data.length := by decide
  exact Nat.lt_of_lt_of_le h1 hp.length_le

/-- Claim C8 counterexample: for the unrecognized status `"SOMETHING"` the
rendered comment shows the status verbatim and contains no question-mark
icon character at all, so an unrecognized status is not rendered together
with the Unknown icon. -/
theorem gate_c8_counterexample :
    healthIcon "SOMETHING" = "SOMETHING" ∧
    '❓' ∉ (format_comment [] [] [] [] [] "SOMETHING" "https://sonar.example" "proj"
      none false).data :=
  ⟨by decide, by decide⟩

/-- Claim C8 as amended: the status `"ERROR"` renders as the Failed label in
every scenario (the health line with that label is part of every comment
rendered for it), and a status outside the four recognized values renders
verbatim with no icon attached, rather than failing the run. -/
theorem gate_c8_amended :
    healthIcon "ERROR" = "❌ Failed" ∧
    (∀ (issues : List Issue) (hotspots : List Hotspot) (cs : ChangeSet)
      (metrics fc : List (String × String)) (host pk : String) (pr : Option Nat) (m : Bool),
      ("**PR Health**: ❌ Failed\n\n").data <:+:
        (format_comment issues hotspots cs metrics fc "ERROR" host pk pr m).data) ∧
    (∀ s : String, s ≠ "OK" → s ≠ "ERROR" → s ≠ "WARN" → s ≠ "UNKNOWN" → healthIcon s = s) := by
  refine ⟨by decide, ?_, ?_⟩
  · intro issues hotspots cs metrics fc host pk pr m
    have hh : healthLine "ERROR" = "**PR Health**: ❌ Failed\n\n" := by decide
    rw [← hh]
    exact strMiddle_infixOf
      (commentMarkerLine ++
        ("### 🔍 SonarQube Analysis (New Code)\n" ++ analysisLinkLine host pk pr m))
      (healthLine "ERROR")
      (coverageLine metrics ++
        (fileCoverageSection fc ++
          (findingsSection (relevantIssues issues cs host pk pr m)
              (relevantHotspots hotspots cs host pk pr m) ++
            "\n---\n_Reported by sonarppr-scan_")))
      (format_comment issues hotspots cs metrics fc "ERROR" host pk pr m)
      (by simp [format_comment, String.append_assoc])
  · intro s h1 h2 h3 h4
    unfold healthIcon
    rw [if_neg h1, if_neg h2, if_neg h3, if_neg h4]

/-- Witness for the amended C8 at a concrete unrecognized status. -/
theorem gate_c8_witness : healthIcon "NONE" = "NONE" :=
  gate_c8_amended.2.2 "NONE" (by decide) (by decide) (by decide) (by decide)

theorem check_notMem_severityIcon (s : String) : '✅' ∉ (severityIcon s).data := by
  unfold severityIcon
  split_ifs <;> decide

theorem check_notMem_issueRow (e : RelevantIssue) (hb : riBenign e) :
    '✅' ∉ (issueRow e).data := by
  obtain ⟨h1, h2, h3, h4, h5⟩ := hb
  have hicon := check_notMem_severityIcon e.severity
  simp only [issueRow, strData_append, List.mem_append, not_or]
  exact ⟨⟨⟨⟨⟨⟨⟨⟨⟨⟨⟨⟨by decide, hicon⟩, by decide⟩, h4⟩, by decide⟩, h1⟩, by decide⟩, h2⟩,
    by decide⟩, h3⟩, by decide⟩, h5⟩, by decide⟩

theorem check_notMem_issueRows (ris : List RelevantIssue) (hb : ∀ e ∈ ris, riBenign e) :
    '✅' ∉ (issueRows ris).data := by
  induction ris with
  | nil => decide
  | cons e rest ih =>
    exact char_notMem_append (check_notMem_issueRow e (hb e (List.mem_cons_self e rest)))
      (ih (fun x hx => hb x (List.mem_cons_of_mem e hx)))

theorem check_notMem_issuesTable (ris : List RelevantIssue) (hb : ∀ e ∈ ris, riBenign e) :
    '✅' ∉ (issuesTable ris).data := by
  unfold issuesTable
  by_cases h : ris.isEmpty = true
  · rw [if_pos h]
    decide
  · rw [if_neg h]
    exact char_notMem_append
      (char_notMem_append (by decide) (check_notMem_issueRows ris hb)) (by decide)

theorem check_notMem_hotspotRow (e : RelevantHotspot) (hb : rhBenign e) :
    '✅' ∉ (hotspotRow e).data := by
  obtain ⟨h1, h2, h3, h4, h5⟩ := hb
  simp only [hotspotRow, strData_append, List.mem_append, not_or]
  exact ⟨⟨⟨⟨⟨⟨⟨⟨⟨⟨by decide, h4⟩, by decide⟩, h1⟩, by decide⟩, h2⟩, by decide⟩, h3⟩,
    by decide⟩, h5⟩, by decide⟩

theorem check_notMem_hotspotRows (rhs : List RelevantHotspot) (hb : ∀ e ∈ rhs, rhBenign e) :
    '✅' ∉ (hotspotRows rhs).data := by
  induction rhs with
  | nil => decide
  | cons e rest ih =>
    exact char_notMem_append (check_notMem_hotspotRow e (hb e (List.mem_cons_self e rest)))
      (ih (fun x hx => hb x (List.mem_cons_of_mem e hx)))

theorem check_notMem_hotspotsTable (rhs : List RelevantHotspot) (hb : ∀ e ∈ rhs, rhBenign e) :
    '✅' ∉ (hotspotsTable rhs).data := by
  unfold hotspotsTable
  by_cases h : rhs.isEmpty = true
  · rw [if_pos h]
    decide
  · rw [if_neg h]
    exact char_notMem_append
      (char_notMem_append (by decide) (check_notMem_hotspotRows rhs hb)) (by decide)

theorem check_notMem_findings (ris : List RelevantIssue) (rhs : List RelevantHotspot)
    (hb1 : ∀ e ∈ ris, riBenign e) (hb2 : ∀ e ∈ rhs, rhBenign e)
    (hne : ¬(ris = [] ∧ rhs = [])) : '✅' ∉ (findingsSection ris rhs).data := by
  have hcond : (ris.isEmpty && rhs.isEmpty) = false := by
    rcases Decidable.em (ris = []) with h | h
    · rcases Decidable.em (rhs = []) with h' | h'
      · exact absurd ⟨h, h'⟩ hne
      · simp [List.isEmpty_iff, h']
    · simp [List.isEmpty_iff, h]
  unfold findingsSection
  rw [hcond]
  simp only [Bool.false_eq_true, if_false]
  exact char_notMem_append (check_notMem_issuesTable ris hb1)
    (check_notMem_hotspotsTable rhs hb2)

/-- Claim C7: when both relevant lists are empty the findings section is
exactly the no-issues marker (hence contains neither table header), and the
marker occurs in the full rendered comment; when either list is non-empty
(and no rendered field of an entry contains the marker's leading check-mark
character) the findings section does not contain the marker. -/
theorem empty_c7 (issues : List Issue) (hotspots : List Hotspot) (changed_lines : ChangeSet)
    (metrics file_coverage : List (String × String)) (qg_status host project_key : String)
    (pr_number : Option Nat) (is_pr_mode : Bool)
    (ris : List RelevantIssue) (rhs : List RelevantHotspot) :
    (ris = [] → rhs = [] →
      findingsSection ris rhs = noIssuesMarker ∧
      ¬ issuesTableHeader.data <:+: (findingsSection ris rhs).data ∧
      ¬ hotspotsTableHeader.data <:+: (findingsSection ris rhs).data) ∧
    ((∀ e ∈ ris, riBenign e) → (∀ e ∈ rhs, rhBenign e) → ¬(ris = [] ∧ rhs = []) →
      ¬ noIssuesMarker.data <:+: (findingsSection ris rhs).data) ∧
    (relevantIssues issues changed_lines host project_key pr_number is_pr_mode = [] →
      relevantHotspots hotspots changed_lines host project_key pr_number is_pr_mode = [] →
      noIssuesMarker.data <:+:
        (format_comment issues hotspots changed_lines metrics file_coverage qg_status host
          project_key pr_number is_pr_mode).data) := by
  refine ⟨?_, ?_, ?_⟩
  · intro h1 h2
    subst h1
    subst h2
    refine ⟨rfl, ?_, ?_⟩
    · intro hinf
      exact absurd (hinf.subset (by decide)) (by decide : '🐛' ∉ (findingsSection [] []).data)
    · intro hinf
      exact absurd (hinf.subset (by decide)) (by decide : '🛡' ∉ (findingsSection [] []).data)
  · intro hb1 hb2 hne hinf
    exact check_notMem_findings ris rhs hb1 hb2 hne (hinf.subset (by decide))
  · intro h1 h2
    have hsec : findingsSection
        (relevantIssues issues changed_lines host project_key pr_number is_pr_mode)
        (relevantHotspots hotspots changed_lines host project_key pr_number is_pr_mode) =
        noIssuesMarker := by
      rw [h1, h2]
      rfl
    have hm := strMiddle_infixOf
      (commentMarkerLine ++
        ("### 🔍 SonarQube Analysis (New Code)\n" ++
          (analysisLinkLine host project_key pr_number is_pr_mode ++
            (healthLine qg_status ++
              (coverageLine metrics ++ fileCoverageSection file_coverage)))))
      (findingsSection
        (relevantIssues issues changed_lines host project_key pr_number is_pr_mode)
        (relevantHotspots hotspots changed_lines host project_key pr_number is_pr_mode))
      "\n---\n_Reported by sonarppr-scan_"
      (format_comment issues hotspots changed_lines metrics file_coverage qg_status host
        project_key pr_number is_pr_mode)
      (by simp [format_comment, String.append_assoc])
    rw [hsec] at hm
    exact hm

/-- Witness for C7: both directions at concrete inputs — empty lists give
exactly the marker, a non-empty benign list gives a section without the
marker, and an empty run's full comment contains the marker. -/
theorem empty_c7_witness :
    (findingsSection [] [] = noIssuesMarker ∧
      ¬ issuesTableHeader.data <:+: (findingsSection [] []).data ∧
      ¬ hotspotsTableHeader.data <:+: (findingsSection [] []).data) ∧
    ¬ noIssuesMarker.data <:+: (findingsSection [wRI] []).data ∧
    noIssuesMarker.data <:+:
      (format_comment [] [] [] [] [] "OK" "https://sonar.example" "proj" none false).data :=
  ⟨(empty_c7 [] [] [] [] [] "OK" "https://sonar.example" "proj" none false [] []).1 rfl rfl,
   (empty_c7 [] [] [] [] [] "OK" "https://sonar.example" "proj" none false [wRI] []).2.1
     (by decide) (by decide) (by simp),
   (empty_c7 [] [] [] [] [] "OK" "https://sonar.example" "proj" none false [] []).2.2 rfl rfl⟩

end SonarPrScan
